import Mathlib

/-!
Verification development for the frnsc-sqlite adapter (ForensicRS/frnsc-sqlite).

The repository is a thin adapter (`src/lib.rs`) over the external `sqlite`
crate and the `forensic_rs` trait crate.  The adapter code is embedded
faithfully below.  The external SQLite engine itself is out of scope for the
repository; it is modelled here as a deterministic statement machine
(`EngineStmt`) over a fixed result-row list, plus an abstract engine record
(`SqlEngine`) for opening databases and preparing statements, following the
behaviour the specification attributes to the engine.
-/

namespace FrnscSqlite

/-- Runtime type tag of the external engine (`sqlite::Type`). -/
inductive SqliteType
  | Binary
  | Float
  | Integer
  | String
  | Null
deriving DecidableEq, Repr

/-- Step outcome of the external engine (`sqlite::State`). -/
inductive SqliteState
  | Row
  | Done
deriving DecidableEq, Repr

/-- A runtime cell value held by the engine.  SQLite is dynamically typed per
cell.  Floats are carried opaquely as a bit pattern: the adapter never
computes with them, it only moves them. -/
inductive SqlValue
  | binary (bytes : List Nat)
  | float (bits : Nat)
  | integer (val : Int)
  | string (val : String)
  | null
deriving DecidableEq, Repr

/-- The engine's runtime type tag of a cell value. -/
def SqlValue.typeOf : SqlValue → SqliteType
  | .binary _ => .Binary
  | .float _ => .Float
  | .integer _ => .Integer
  | .string _ => .String
  | .null => .Null

/-- Column type tag of the forensic trait crate (`forensic_rs` `ColumnType`). -/
inductive ColumnType
  | Binary
  | Float
  | Integer
  | String
  | Null
deriving DecidableEq, Repr

/-- Tagged-union cell value of the forensic trait crate (`forensic_rs`
`ColumnValue`). -/
inductive ColumnValue
  | Binary (v : List Nat)
  | Float (v : Nat)
  | Integer (v : Int)
  | String (v : String)
  | Null
deriving DecidableEq, Repr

/-- Error type of the forensic trait crate (`forensic_rs` `ForensicError`),
restricted to the kinds the adapter produces: an I/O kind (from the `?`
conversion of `std::io::Error`), an engine kind wrapping the native message
(`ForensicError::Other`), and the type-conversion kind raised by
`ColumnValue` coercions. -/
inductive ForensicError
  | Io (msg : String)
  | Other (msg : String)
  | CastError
deriving DecidableEq, Repr

/-- Modelled from the spec: coercion of a tagged-union value to `String`
(`TryInto<String> for ColumnValue`, owned by the trait crate).  It succeeds
exactly on the `String` variant and otherwise raises the type-conversion
error kind. -/
def try_into_string : ColumnValue → Except ForensicError String
  | .String s => .ok s
  | _ => .error ForensicError.CastError

/-- Modelled from the spec: a prepared statement of the external engine, as a
deterministic machine over the result rows the engine yields for the
compiled query: the declared column names, the rows not yet yielded (in
yield order), and the row the cursor is currently positioned on, if any. -/
structure EngineStmt where
  columns : List String
  pending : List (List SqlValue)
  current : Option (List SqlValue)
deriving DecidableEq, Repr

/-- Modelled from the spec: `sqlite3_step` via the `sqlite` crate
(`Statement::next`).  Yields the next pending row (`Row`) or reports
exhaustion (`Done`); exhaustion is terminal, so stepping an exhausted
statement keeps yielding `Done`.  In this deterministic model the step
itself never fails; the fallible result type mirrors the crate signature. -/
def EngineStmt.step (st : EngineStmt) : Except String (SqliteState × EngineStmt) :=
  match st.pending with
  | r :: rest => .ok (.Row, ⟨st.columns, rest, some r⟩)
  | [] => .ok (.Done, ⟨st.columns, [], none⟩)

/-- Modelled from the spec: the engine's column count. -/
def EngineStmt.engine_column_count (st : EngineStmt) : Nat :=
  st.columns.length

/-- Modelled from the spec: the engine's fallible per-index column-name
lookup (`Statement::column_name`); it fails on an out-of-range index. -/
def EngineStmt.engine_column_name (st : EngineStmt) (i : Nat) : Except String String :=
  match st.columns[i]? with
  | some s => .ok s
  | none => .error "column index out of range"

/-- Modelled from the spec: the engine's full ordered column-name list
(`Statement::column_names`); infallible. -/
def EngineStmt.engine_column_names (st : EngineStmt) : List String :=
  st.columns

/-- Modelled from the spec: the engine's runtime type of column `i` of the
current row (`Statement::column_type`).  The spec leaves behaviour without a
current row unspecified (a precondition violation); the model reports it,
like an out-of-range index, as an engine failure. -/
def EngineStmt.engine_column_type (st : EngineStmt) (i : Nat) : Except String SqliteType :=
  match st.current with
  | none => .error "no row available"
  | some row =>
    match row[i]? with
    | some v => .ok v.typeOf
    | none => .error "column index out of range"

/-- Modelled from the spec: the engine's typed read of a BLOB cell
(`Statement::read::<Vec<u8>>`). -/
def EngineStmt.read_binary (st : EngineStmt) (i : Nat) : Except String (List Nat) :=
  match st.current with
  | none => .error "no row available"
  | some row =>
    match row[i]? with
    | some (.binary b) => .ok b
    | some _ => .error "type mismatch"
    | none => .error "column index out of range"

/-- Modelled from the spec: the engine's typed read of a REAL cell
(`Statement::read::<f64>`). -/
def EngineStmt.read_float (st : EngineStmt) (i : Nat) : Except String Nat :=
  match st.current with
  | none => .error "no row available"
  | some row =>
    match row[i]? with
    | some (.float f) => .ok f
    | some _ => .error "type mismatch"
    | none => .error "column index out of range"

/-- Modelled from the spec: the engine's typed read of an INTEGER cell
(`Statement::read::<i64>`). -/
def EngineStmt.read_integer (st : EngineStmt) (i : Nat) : Except String Int :=
  match st.current with
  | none => .error "no row available"
  | some row =>
    match row[i]? with
    | some (.integer n) => .ok n
    | some _ => .error "type mismatch"
    | none => .error "column index out of range"

/-- Modelled from the spec: the engine's typed read of a TEXT cell
(`Statement::read::<String>`). -/
def EngineStmt.read_string (st : EngineStmt) (i : Nat) : Except String String :=
  match st.current with
  | none => .error "no row available"
  | some row =>
    match row[i]? with
    | some (.string s) => .ok s
    | some _ => .error "type mismatch"
    | none => .error "column index out of range"

/-- Embedding of `SqliteStatement` from `src/lib.rs`: wraps one prepared engine statement. -/
structure SqliteStatement where
  stmt : EngineStmt
deriving DecidableEq, Repr

/-- Embedding of `SqliteStatement::column_count` (`src/lib.rs` lines 93-95): pass-through
to the engine. -/
def SqliteStatement.column_count (s : SqliteStatement) : Nat :=
  s.stmt.engine_column_count

/-- Embedding of `SqliteStatement::column_name` (`src/lib.rs` lines 97-102): an engine
failure degrades to `none` instead of propagating. -/
def SqliteStatement.column_name (s : SqliteStatement) (i : Nat) : Option String :=
  match s.stmt.engine_column_name i with
  | .ok v => some v
  | .error _ => none

/-- Embedding of `SqliteStatement::column_names` (`src/lib.rs` lines 104-106):
pass-through of the engine's ordered column-name list. -/
def SqliteStatement.column_names (s : SqliteStatement) : List String :=
  s.stmt.engine_column_names

/-- Embedding of `SqliteStatement::column_type` (`src/lib.rs` lines 108-120): an engine
failure degrades to the `Null` tag; otherwise the engine tag is mirrored
1:1. -/
def SqliteStatement.column_type (s : SqliteStatement) (i : Nat) : ColumnType :=
  match s.stmt.engine_column_type i with
  | .error _ => ColumnType.Null
  | .ok column_type =>
    match column_type with
    | SqliteType.Binary => ColumnType.Binary
    | SqliteType.Float => ColumnType.Float
    | SqliteType.Integer => ColumnType.Integer
    | SqliteType.String => ColumnType.String
    | SqliteType.Null => ColumnType.Null

/-- Embedding of `SqliteStatement::next` (`src/lib.rs` lines 122-130): maps the engine's
`Row` to `true`, `Done` to `false`, and wraps an engine failure in the
engine error kind. -/
def SqliteStatement.next (s : SqliteStatement) : Except ForensicError (Bool × SqliteStatement) :=
  match s.stmt.step with
  | .ok (.Row, st) => .ok (true, ⟨st⟩)
  | .ok (.Done, st) => .ok (false, ⟨st⟩)
  | .error e => .error (ForensicError.Other e)

/-- Embedding of `SqliteStatement::read` (`src/lib.rs` lines 132-156): inspects the
runtime column type, then extracts the value with the matching typed read
and wraps it in the matching tagged-union variant; the `Null` type yields
`ColumnValue::Null` with no engine read at all. -/
def SqliteStatement.read (s : SqliteStatement) (i : Nat) : Except ForensicError ColumnValue :=
  match s.stmt.engine_column_type i with
  | .error e => .error (ForensicError.Other e)
  | .ok column_type =>
    match column_type with
    | SqliteType.Binary =>
      match s.stmt.read_binary i with
      | .ok v => .ok (ColumnValue.Binary v)
      | .error e => .error (ForensicError.Other e)
    | SqliteType.Float =>
      match s.stmt.read_float i with
      | .ok v => .ok (ColumnValue.Float v)
      | .error e => .error (ForensicError.Other e)
    | SqliteType.Integer =>
      match s.stmt.read_integer i with
      | .ok v => .ok (ColumnValue.Integer v)
      | .error e => .error (ForensicError.Other e)
    | SqliteType.String =>
      match s.stmt.read_string i with
      | .ok v => .ok (ColumnValue.String v)
      | .error e => .error (ForensicError.Other e)
    | SqliteType.Null => .ok ColumnValue.Null

/-- Repeated application of `next`, keeping only the final cursor state (the
error branch is unreachable in the deterministic engine model). -/
def SqliteStatement.iterate (s : SqliteStatement) : Nat → SqliteStatement
  | 0 => s
  | n + 1 =>
    match s.next with
    | .ok (_, s') => s'.iterate n
    | .error _ => s

/-- Embedding of `std::time::Duration` as the adapter uses it: whole seconds plus a
subsecond-nanosecond part. -/
structure Duration where
  secs : Nat
  nanos : Nat
deriving DecidableEq, Repr

/-- Embedding of `Duration::from_secs`: whole seconds, subsecond part zero. -/
def Duration.from_secs (s : Nat) : Duration := ⟨s, 0⟩

/-- Embedding of `Duration::subsec_nanos`: the subsecond-nanosecond part. -/
def Duration.subsec_nanos (d : Duration) : Nat := d.nanos

/-- Embedding of `sqlite::OpenFlags` as the adapter uses it: only the two flags it ever
sets are tracked. -/
structure OpenFlags where
  read_only : Bool
  full_mutex : Bool
deriving DecidableEq, Repr

/-- Embedding of `OpenFlags::new`: no flags set. -/
def OpenFlags.new : OpenFlags := ⟨false, false⟩

/-- Embedding of `OpenFlags::set_read_only`. -/
def OpenFlags.set_read_only (f : OpenFlags) : OpenFlags := ⟨true, f.full_mutex⟩

/-- Embedding of `OpenFlags::set_full_mutex`. -/
def OpenFlags.set_full_mutex (f : OpenFlags) : OpenFlags := ⟨f.read_only, true⟩

/-- Modelled from the spec: the external SQLite engine, abstracted over the
type `δ` of parsed database contents.  Opening yields a content determined
by the file bytes alone — per the spec the open flags control locking and
writability (serialized mode is about thread safety), not what a read-only
query observes — and preparing compiles SQL against a content into a
statement machine.  The flags requested at open time are recorded on the
`Connection`. -/
structure SqlEngine (δ : Type) where
  openDb : List Nat → Except String δ
  prepareStmt : δ → String → Except String EngineStmt

/-- A live engine connection: the parsed database content plus the flags it
was opened with. -/
structure Connection (δ : Type) where
  db : δ
  flags : OpenFlags

/-- Embedding of `SqliteDB` from `src/lib.rs`: owns one engine connection. -/
structure SqliteDB (δ : Type) where
  conn : Connection δ

/-- Embedding of `SqliteDB::new` (`src/lib.rs` lines 15-17): pure ownership transfer. -/
def SqliteDB.new {δ : Type} (conn : Connection δ) : SqliteDB δ := ⟨conn⟩

/-- Embedding of `SqliteStatement::new` (`src/lib.rs` lines 82-89): compiles the SQL text
on the connection, wrapping an engine failure in the engine error kind. -/
def SqliteStatement.new {δ : Type} (eng : SqlEngine δ) (conn : Connection δ)
    (statement : String) : Except ForensicError SqliteStatement :=
  match eng.prepareStmt conn.db statement with
  | .ok st => .ok ⟨st⟩
  | .error e => .error (ForensicError.Other e)

/-- Embedding of `SqlDb::prepare` for `SqliteDB` (`src/lib.rs` lines 51-53). -/
def SqliteDB.prepare {δ : Type} (eng : SqlEngine δ) (db : SqliteDB δ)
    (statement : String) : Except ForensicError SqliteStatement :=
  SqliteStatement.new eng db.conn statement

/-- A virtual file (`forensic_rs` `VirtualFile`), modelled as the script of
its successive read outcomes: each entry maps the caller's buffer size to
either a `ForensicError` (the trait's reads return `ForensicResult`) or the
bytes placed into the buffer, the empty list meaning end-of-stream.  Once
the script is exhausted every further read reports end-of-stream. -/
abbrev VirtualFile := List (Nat → Except ForensicError (List Nat))

/-- The canonical virtual file wrapping a concrete byte content, as a
file-backed virtual file behaves: every read fills the caller's 4096-byte
buffer with the next up-to-4096 bytes of the remaining content and reports
end-of-stream once the content is consumed. -/
def VirtualFile.ofBytes (bs : List Nat) : VirtualFile :=
  if h : bs = [] then []
  else (fun _ => Except.ok (bs.take 4096)) :: VirtualFile.ofBytes (bs.drop 4096)
termination_by bs.length
decreasing_by
  simp only [List.length_drop]
  have hpos : 0 < bs.length := List.length_pos.mpr h
  omega

/-- The copy loop of `SqliteDB::virtual_file` (`src/lib.rs` lines 35-41):
read into a 4096-byte buffer, stop on a zero-length read, otherwise write
the filled portion to the temp file and continue.  `write_res` gives the
outcome of the `k`-th `write_all` (its `std::io::Error` converts to the I/O
error kind via `?`); `acc` accumulates the bytes written so far, returned
on success. -/
def copy_loop (file : VirtualFile) (write_res : Nat → Except String Unit)
    (k : Nat) (acc : List Nat) : Except ForensicError (List Nat) :=
  match file with
  | [] => .ok acc
  | f :: rest =>
    match f 4096 with
    | .error e => .error e
    | .ok chunk =>
      if chunk.length = 0 then .ok acc
      else
        match write_res k with
        | .error e => .error (ForensicError.Io e)
        | .ok _ => copy_loop rest write_res (k + 1) (acc ++ chunk)

/-- Embedding of `std::env::temp_dir().join(file_name)`. -/
def temp_dir_join (dir file_name : String) : String :=
  dir ++ "/" ++ file_name

/-- The observable outcome of a materialization: the returned
`ForensicResult<SqliteDB>` plus the temp-file path the code used (the side
effect, made explicit by the embedding). -/
structure MaterializeOutcome (δ : Type) where
  result : Except ForensicError (SqliteDB δ)
  temp_path : String

/-- Embedding of `SqliteDB::virtual_file` (`src/lib.rs` lines 24-47), with the ambient
effects passed explicitly: `clock` is `SystemTime::now().duration_since(UNIX_EPOCH)`,
`temp_dir` is `std::env::temp_dir()`, `create_res` the outcome of
`std::fs::File::create` and `write_res` the outcomes of the successive
`write_all` calls (both converting `std::io::Error` to the I/O error kind
via `?`), and `eng` the engine answering `Connection::open_with_flags` on
the streamed bytes. -/
def SqliteDB.virtual_file {δ : Type} (eng : SqlEngine δ) (clock : Except Unit Duration)
    (temp_dir : String) (create_res : Except String Unit)
    (write_res : Nat → Except String Unit) (file : VirtualFile) :
    MaterializeOutcome δ :=
  let millis :=
    (match clock with
     | .ok v => v
     | .error _ => Duration.from_secs 1).subsec_nanos
  let file_name := "forensic_sqlite." ++ toString millis ++ ".db"
  let temp_path := temp_dir_join temp_dir file_name
  match create_res with
  | .error e => ⟨.error (ForensicError.Io e), temp_path⟩
  | .ok _ =>
    match copy_loop file write_res 0 [] with
    | .error e => ⟨.error e, temp_path⟩
    | .ok bytes =>
      match eng.openDb bytes with
      | .error e => ⟨.error (ForensicError.Other e), temp_path⟩
      | .ok connection =>
        ⟨.ok (SqliteDB.new ⟨connection, OpenFlags.new.set_read_only.set_full_mutex⟩),
          temp_path⟩

/-- The exact introspection SQL text `SqliteDB::list_tables` runs
(`src/lib.rs` lines 60-66). -/
def list_tables_query : String :=
  "SELECT \n        name\n    FROM \n        sqlite_schema\n    WHERE \n        type ='table' AND \n        name NOT LIKE 'sqlite_%';"

/-- On a successful advance to a row, the pending-row count strictly
decreases (termination measure of the iteration loops). -/
theorem next_true_pending_lt (s s' : SqliteStatement)
    (h : s.next = Except.ok (true, s')) :
    s'.stmt.pending.length < s.stmt.pending.length := by
  unfold SqliteStatement.next EngineStmt.step at h
  cases hp : s.stmt.pending with
  | nil => rw [hp] at h; simp at h
  | cons r rest =>
    rw [hp] at h
    simp only [Except.ok.injEq, Prod.mk.injEq, true_and] at h
    rw [← h]
    simp [hp]

/-- The row-collection loop of `SqliteDB::list_tables` (`src/lib.rs` lines
67-73): advance, read column 0, coerce to `String`, push; stop when the
cursor is exhausted; propagate every failure. -/
def list_tables_loop (sts : SqliteStatement) (ret : List String) :
    Except ForensicError (List String) :=
  match h : sts.next with
  | .error e => .error e
  | .ok (false, _) => .ok ret
  | .ok (true, sts') =>
    match sts'.read 0 with
    | .error e => .error e
    | .ok v =>
      match try_into_string v with
      | .error e => .error e
      | .ok name => list_tables_loop sts' (ret ++ [name])
termination_by sts.stmt.pending.length
decreasing_by
  exact next_true_pending_lt _ _ h

/-- Embedding of `SqlDb::list_tables` for `SqliteDB` (`src/lib.rs` lines 58-75). -/
def SqliteDB.list_tables {δ : Type} (eng : SqlEngine δ) (db : SqliteDB δ) :
    Except ForensicError (List String) :=
  match SqliteDB.prepare eng db list_tables_query with
  | .error e => .error e
  | .ok sts => list_tables_loop sts []

/-- Reads the given column indices of the current row, propagating the first
failure. -/
def read_cols (s : SqliteStatement) : List Nat → Except ForensicError (List ColumnValue)
  | [] => .ok []
  | i :: rest =>
    match s.read i with
    | .error e => .error e
    | .ok v =>
      match read_cols s rest with
      | .error e => .error e
      | .ok vs => .ok (v :: vs)

/-- Reads every column (0 to `column_count - 1`) of the current row. -/
def read_row (s : SqliteStatement) : Except ForensicError (List ColumnValue) :=
  read_cols s (List.range s.column_count)

/-- Drives a cursor to exhaustion, reading every column of every row: the
full observable result of a query through the adapter. -/
def drain_rows (s : SqliteStatement) (acc : List (List ColumnValue)) :
    Except ForensicError (List (List ColumnValue)) :=
  match h : s.next with
  | .error e => .error e
  | .ok (false, _) => .ok acc
  | .ok (true, s') =>
    match read_row s' with
    | .error e => .error e
    | .ok row => drain_rows s' (acc ++ [row])
termination_by s.stmt.pending.length
decreasing_by
  exact next_true_pending_lt _ _ h

/-- Prepare a query on a handle and drain it: everything a caller can
observe of the query through the adapter. -/
def run_query {δ : Type} (eng : SqlEngine δ) (db : SqliteDB δ) (sql : String) :
    Except ForensicError (List (List ColumnValue)) :=
  match SqliteDB.prepare eng db sql with
  | .error e => .error e
  | .ok sts => drain_rows sts []

/-- The tagged-union variant matching a runtime cell value: `Binary` cells to
the `Binary` variant, `Float` to `Float`, `Integer` to `Integer`, `String`
to `String` and `Null` to `Null`. -/
def wrap_value : SqlValue → ColumnValue
  | .binary b => .Binary b
  | .float f => .Float f
  | .integer n => .Integer n
  | .string s => .String s
  | .null => .Null

/-- Once `next` has reported exhaustion, the cursor it leaves behind reports
exhaustion again, leaving itself behind. -/
theorem next_false_fixpoint (s s' : SqliteStatement)
    (h : s.next = Except.ok (false, s')) :
    s'.next = Except.ok (false, s') := by
  unfold SqliteStatement.next EngineStmt.step at h ⊢
  cases hp : s.stmt.pending with
  | cons r rest => rw [hp] at h; simp at h
  | nil =>
    rw [hp] at h
    simp only [Except.ok.injEq, Prod.mk.injEq, true_and] at h
    rw [← h]

/-- A cursor that `next` maps to itself is a fixed point of `iterate`. -/
theorem iterate_fixpoint (s : SqliteStatement) (h : s.next = Except.ok (false, s)) :
    ∀ n : Nat, s.iterate n = s := by
  intro n
  induction n with
  | zero => rfl
  | succ m ih => rw [SqliteStatement.iterate, h]; exact ih

/-- Modelled from the spec: the statement machine the engine yields for the
select-all `SELECT name, age FROM users;` over the seeded two-column table
holding ("Alice", 42) then ("Bob", 69) in insertion order. -/
def users_select_stmt : SqliteStatement :=
  ⟨⟨["name", "age"],
    [[SqlValue.string "Alice", SqlValue.integer 42],
     [SqlValue.string "Bob", SqlValue.integer 69]],
    none⟩⟩

/-- The cursor state positioned on the first seeded row. -/
def users_row1_state : SqliteStatement :=
  ⟨⟨["name", "age"],
    [[SqlValue.string "Bob", SqlValue.integer 69]],
    some [SqlValue.string "Alice", SqlValue.integer 42]⟩⟩

/-- The cursor state positioned on the second seeded row. -/
def users_row2_state : SqliteStatement :=
  ⟨⟨["name", "age"], [], some [SqlValue.string "Bob", SqlValue.integer 69]⟩⟩

/-- The exhausted cursor state of the seeded select-all. -/
def users_done_state : SqliteStatement :=
  ⟨⟨["name", "age"], [], none⟩⟩

/-- C2: over the seeded two-column table [("Alice", 42), ("Bob", 69)], the
select-all cursor yields the rows in insertion order — first `next` is
`true` with `read 0 = String "Alice"` and `read 1 = Integer 42`, second
`next` is `true` with `read 0 = String "Bob"` and `read 1 = Integer 69`,
third `next` is `false`, and every subsequent `next` is `false` as well. -/
theorem claim_C2_seeded_rows :
    users_select_stmt.next = Except.ok (true, users_row1_state) ∧
    users_row1_state.read 0 = Except.ok (ColumnValue.String "Alice") ∧
    users_row1_state.read 1 = Except.ok (ColumnValue.Integer 42) ∧
    users_row1_state.next = Except.ok (true, users_row2_state) ∧
    users_row2_state.read 0 = Except.ok (ColumnValue.String "Bob") ∧
    users_row2_state.read 1 = Except.ok (ColumnValue.Integer 69) ∧
    users_row2_state.next = Except.ok (false, users_done_state) ∧
    ∀ n : Nat, (users_done_state.iterate n).next
      = Except.ok (false, users_done_state) := by
  refine ⟨rfl, rfl, rfl, rfl, rfl, rfl, rfl, ?_⟩
  intro n
  have hfix : users_done_state.next = Except.ok (false, users_done_state) := rfl
  rw [iterate_fixpoint _ hfix n]
  exact hfix

/-- C3: once `next` has returned `false`, every subsequent call to `next` on
that cursor also returns `false` — exhaustion is terminal. -/
theorem claim_C3_exhaustion_terminal (s s' : SqliteStatement)
    (h : s.next = Except.ok (false, s')) :
    ∀ n : Nat, (s'.iterate n).next = Except.ok (false, s'.iterate n) := by
  intro n
  have hfix := next_false_fixpoint s s' h
  rw [iterate_fixpoint _ hfix n]
  exact hfix

/-- An exhausted cursor used to witness C3. -/
def exhausted_stmt : SqliteStatement := ⟨⟨["name"], [], none⟩⟩

/-- Witness for C3 at a concrete exhausted cursor. -/
theorem claim_C3_witness :
    exhausted_stmt.next = Except.ok (false, exhausted_stmt) ∧
    (exhausted_stmt.iterate 3).next
      = Except.ok (false, exhausted_stmt.iterate 3) :=
  ⟨rfl, claim_C3_exhaustion_terminal exhausted_stmt exhausted_stmt rfl 3⟩

/-- C4: with the cursor positioned on a row and `i` in range, `read i`
inspects the runtime type of the cell and returns the matching tagged-union
variant (`wrap_value`); in particular a `null` cell yields the `Null`
variant (the `Null` case never fails), whatever the column declaration. -/
theorem claim_C4_read_matches_runtime_type (st : SqliteStatement)
    (row : List SqlValue) (i : Nat) (v : SqlValue)
    (hcur : st.stmt.current = some row) (hv : row[i]? = some v) :
    st.read i = Except.ok (wrap_value v) := by
  cases v <;>
    simp [SqliteStatement.read, EngineStmt.engine_column_type,
      EngineStmt.read_binary, EngineStmt.read_float, EngineStmt.read_integer,
      EngineStmt.read_string, hcur, hv, SqlValue.typeOf, wrap_value]

/-- A cursor positioned on a row whose only cell is NULL, to witness C4. -/
def null_cell_stmt : SqliteStatement := ⟨⟨["c"], [], some [SqlValue.null]⟩⟩

/-- Witness for C4 at a concrete NULL cell: the `Null` variant comes back. -/
theorem claim_C4_witness :
    null_cell_stmt.read 0 = Except.ok ColumnValue.Null :=
  claim_C4_read_matches_runtime_type null_cell_stmt [SqlValue.null] 0
    SqlValue.null rfl rfl

/-- C5: `column_type` and `column_name` never return an error — an engine
failure degrades to the `Null` tag and to `none` respectively (their return
types have no error case at all) — while the read path and statement
preparation propagate engine failures as the engine error kind. -/
theorem claim_C5_swallowed_fallbacks :
    (∀ (st : SqliteStatement) (i : Nat) (e : String),
      st.stmt.engine_column_type i = Except.error e →
      st.column_type i = ColumnType.Null) ∧
    (∀ (st : SqliteStatement) (i : Nat) (e : String),
      st.stmt.engine_column_name i = Except.error e →
      st.column_name i = none) ∧
    (∀ (st : SqliteStatement) (i : Nat) (e : String),
      st.stmt.engine_column_type i = Except.error e →
      st.read i = Except.error (ForensicError.Other e)) ∧
    (∀ (δ : Type) (eng : SqlEngine δ) (conn : Connection δ) (sql e : String),
      eng.prepareStmt conn.db sql = Except.error e →
      SqliteStatement.new eng conn sql = Except.error (ForensicError.Other e)) := by
  refine ⟨?_, ?_, ?_, ?_⟩
  · intro st i e h
    simp [SqliteStatement.column_type, h]
  · intro st i e h
    simp [SqliteStatement.column_name, h]
  · intro st i e h
    simp [SqliteStatement.read, h]
  · intro δ eng conn sql e h
    simp [SqliteStatement.new, h]

/-- A cursor not positioned on any row, to witness C5's fallbacks. -/
def no_row_stmt : SqliteStatement := ⟨⟨["a"], [], none⟩⟩

/-- An engine whose statement preparation always fails, to witness C5's
propagation clause. -/
def failing_engine : SqlEngine Unit :=
  ⟨fun _ => Except.error "nope", fun _ _ => Except.error "boom"⟩

/-- Witness for C5 at concrete engine failures. -/
theorem claim_C5_witness :
    no_row_stmt.column_type 0 = ColumnType.Null ∧
    no_row_stmt.column_name 5 = none ∧
    no_row_stmt.read 0 = Except.error (ForensicError.Other "no row available") ∧
    SqliteStatement.new failing_engine ⟨(), OpenFlags.new⟩ "SELECT 1"
      = Except.error (ForensicError.Other "boom") :=
  ⟨claim_C5_swallowed_fallbacks.1 no_row_stmt 0 "no row available" rfl,
   claim_C5_swallowed_fallbacks.2.1 no_row_stmt 5 "column index out of range" rfl,
   claim_C5_swallowed_fallbacks.2.2.1 no_row_stmt 0 "no row available" rfl,
   claim_C5_swallowed_fallbacks.2.2.2 Unit failing_engine ⟨(), OpenFlags.new⟩
     "SELECT 1" "boom" rfl⟩

/-- C6: `column_names` agrees with `column_count` in length, agrees with
`column_name` at every index (in or out of range), and both are unchanged
by a row advance. -/
theorem claim_C6_column_metadata_coherent (st : SqliteStatement) :
    st.column_names.length = st.column_count ∧
    (∀ i : Nat, st.column_names[i]? = st.column_name i) ∧
    (∀ (b : Bool) (st' : SqliteStatement), st.next = Except.ok (b, st') →
      st'.column_names = st.column_names ∧ st'.column_count = st.column_count) := by
  refine ⟨rfl, ?_, ?_⟩
  · intro i
    unfold SqliteStatement.column_names SqliteStatement.column_name
    unfold EngineStmt.engine_column_names EngineStmt.engine_column_name
    cases h : st.stmt.columns[i]? <;> simp [h]
  · intro b st' h
    unfold SqliteStatement.next EngineStmt.step at h
    cases hp : st.stmt.pending with
    | nil =>
      rw [hp] at h
      simp only [Except.ok.injEq, Prod.mk.injEq] at h
      rw [← h.2]
      exact ⟨rfl, rfl⟩
    | cons r rest =>
      rw [hp] at h
      simp only [Except.ok.injEq, Prod.mk.injEq] at h
      rw [← h.2]
      exact ⟨rfl, rfl⟩

/-- A two-column one-row cursor, to witness C6. -/
def c6_stmt : SqliteStatement :=
  ⟨⟨["a", "b"], [[SqlValue.integer 1, SqlValue.null]], none⟩⟩

/-- The state of `c6_stmt` after its first (successful) advance. -/
def c6_next_state : SqliteStatement :=
  ⟨⟨["a", "b"], [], some [SqlValue.integer 1, SqlValue.null]⟩⟩

/-- Witness for C6 at a concrete cursor and its concrete advance. -/
theorem claim_C6_witness :
    c6_stmt.column_names.length = c6_stmt.column_count ∧
    c6_stmt.column_names[1]? = c6_stmt.column_name 1 ∧
    (c6_next_state.column_names = c6_stmt.column_names ∧
      c6_next_state.column_count = c6_stmt.column_count) :=
  ⟨(claim_C6_column_metadata_coherent c6_stmt).1,
   (claim_C6_column_metadata_coherent c6_stmt).2.1 1,
   (claim_C6_column_metadata_coherent c6_stmt).2.2 true c6_next_state rfl⟩

/-- An entry of the engine's schema catalog (`sqlite_schema`): an object
name and its object type ("table", "index", ...). -/
structure CatalogEntry where
  name : String
  entry_type : String
deriving DecidableEq, Repr

/-- Whether a catalog entry is a user table: its type is "table" and its
name does not carry the engine's reserved "sqlite_" marker. -/
def is_user_table (e : CatalogEntry) : Bool :=
  e.entry_type == "table" && !(e.name.startsWith "sqlite_")

/-- Modelled from the spec: an engine holding a schema catalog.  Scanning
the catalog for the fixed introspection query yields, in catalog order, one
single-text-column row per entry whose type is 'table' and whose name is
not LIKE 'sqlite_%' (the engine's reserved names); any other statement is
left unmodelled. -/
def schema_engine (catalog : List CatalogEntry) : SqlEngine (List CatalogEntry) :=
  ⟨fun _ => Except.ok catalog,
   fun db sql =>
     if sql = list_tables_query then
       Except.ok ⟨["name"],
         (db.filter is_user_table).map (fun e => [SqlValue.string e.name]),
         none⟩
     else Except.error "unmodelled statement"⟩

/-- The collection loop of `list_tables`, run over single-text-column rows,
appends exactly the carried names, in order, and cannot fail. -/
theorem list_tables_loop_string_rows (cols : List String)
    (cur : Option (List SqlValue)) (names : List String) (ret : List String) :
    list_tables_loop ⟨⟨cols, names.map (fun n => [SqlValue.string n]), cur⟩⟩ ret
      = Except.ok (ret ++ names) := by
  induction names generalizing cur ret with
  | nil =>
    rw [list_tables_loop]
    show Except.ok ret = Except.ok (ret ++ [])
    simp
  | cons n ns ih =>
    rw [list_tables_loop]
    show list_tables_loop
        ⟨⟨cols, ns.map (fun m => [SqlValue.string m]), some [SqlValue.string n]⟩⟩
        (ret ++ [n]) = Except.ok (ret ++ n :: ns)
    rw [ih (some [SqlValue.string n]) (ret ++ [n])]
    simp

/-- C7: `list_tables` returns the catalog's user-table names — every
reserved-name entry excluded — in catalog-scan order, successfully. -/
theorem claim_C7_list_tables (catalog : List CatalogEntry) (flags : OpenFlags) :
    SqliteDB.list_tables (schema_engine catalog) ⟨⟨catalog, flags⟩⟩
      = Except.ok ((catalog.filter is_user_table).map (fun e => e.name)) := by
  unfold SqliteDB.list_tables SqliteDB.prepare SqliteStatement.new schema_engine
  simp only [if_pos rfl]
  have h := list_tables_loop_string_rows ["name"] none
    ((catalog.filter is_user_table).map (fun e => e.name)) []
  rw [List.map_map] at h
  simpa using h

/-- The temp-file path `virtual_file` uses, extracted: the temp directory
joined with `forensic_sqlite.<n>.db` where `n` is the subsecond-nanosecond
part of the clock reading, falling back to a one-second duration when the
clock fails. -/
theorem virtual_file_temp_path {δ : Type} (eng : SqlEngine δ)
    (clock : Except Unit Duration) (temp_dir : String)
    (create_res : Except String Unit) (write_res : Nat → Except String Unit)
    (file : VirtualFile) :
    (SqliteDB.virtual_file eng clock temp_dir create_res write_res file).temp_path
      = temp_dir_join temp_dir ("forensic_sqlite."
          ++ toString (match clock with
              | .ok v => v
              | .error _ => Duration.from_secs 1).subsec_nanos ++ ".db") := by
  cases create_res with
  | error e => rfl
  | ok u =>
    cases hc : copy_loop file write_res 0 [] with
    | error e => simp [SqliteDB.virtual_file, hc]
    | ok bytes =>
      cases ho : eng.openDb bytes with
      | error e => simp [SqliteDB.virtual_file, hc, ho]
      | ok c => simp [SqliteDB.virtual_file, hc, ho]

/-- The returned `ForensicResult` of `virtual_file`, extracted: an I/O error
if the temp file cannot be created, the copy loop's failure if it fails,
the engine error kind wrapping the native message if the open fails, and
otherwise a handle over a connection opened with the read-only and
full-mutex flags. -/
theorem virtual_file_result_eq {δ : Type} (eng : SqlEngine δ)
    (clock : Except Unit Duration) (temp_dir : String)
    (create_res : Except String Unit) (write_res : Nat → Except String Unit)
    (file : VirtualFile) :
    (SqliteDB.virtual_file eng clock temp_dir create_res write_res file).result
      = (match create_res with
         | .error e => Except.error (ForensicError.Io e)
         | .ok _ =>
           match copy_loop file write_res 0 [] with
           | .error e => Except.error e
           | .ok bytes =>
             match eng.openDb bytes with
             | .error e => Except.error (ForensicError.Other e)
             | .ok c => Except.ok (SqliteDB.new
                 ⟨c, OpenFlags.new.set_read_only.set_full_mutex⟩)) := by
  cases create_res with
  | error e => rfl
  | ok u =>
    cases hc : copy_loop file write_res 0 [] with
    | error e => simp [SqliteDB.virtual_file, hc]
    | ok bytes =>
      cases ho : eng.openDb bytes with
      | error e => simp [SqliteDB.virtual_file, hc, ho]
      | ok c => simp [SqliteDB.virtual_file, hc, ho]

/-- The copy loop over the canonical virtual file of a byte content, with
every write succeeding, reproduces that content exactly. -/
theorem copy_ofBytes (bs : List Nat) (k : Nat) (acc : List Nat) :
    copy_loop (VirtualFile.ofBytes bs) (fun _ => Except.ok ()) k acc
      = Except.ok (acc ++ bs) := by
  rw [VirtualFile.ofBytes]
  by_cases h : bs = []
  · rw [dif_pos h]
    show Except.ok acc = Except.ok (acc ++ bs)
    simp [h]
  · rw [dif_neg h]
    show (if (bs.take 4096).length = 0 then Except.ok acc
      else copy_loop (VirtualFile.ofBytes (bs.drop 4096))
        (fun _ => Except.ok ()) (k + 1) (acc ++ bs.take 4096))
      = Except.ok (acc ++ bs)
    have hlen : ¬ (bs.take 4096).length = 0 := by
      have hpos : 0 < bs.length := List.length_pos.mpr h
      rw [List.length_take]
      omega
    rw [if_neg hlen]
    rw [copy_ofBytes (bs.drop 4096) (k + 1) (acc ++ bs.take 4096)]
    rw [List.append_assoc, List.take_append_drop]
termination_by bs.length
decreasing_by
  simp only [List.length_drop]
  have hpos : 0 < bs.length := List.length_pos.mpr h
  omega

/-- An engine witnessing C1: a database content is the raw bytes, and every
statement compiles to an empty cursor. -/
def c1_engine : SqlEngine (List Nat) :=
  ⟨fun bs => Except.ok bs, fun _ _ => Except.ok ⟨["n"], [], none⟩⟩

/-- C1: materializing a virtual file wrapping a database file's bytes yields
a handle over the very same engine content the direct open of those bytes
yields, so running any query through it gives exactly the same outcomes
(every `next` and every `read`) as through the directly opened handle. -/
theorem claim_C1_virtual_roundtrip {δ : Type} (eng : SqlEngine δ)
    (clock : Except Unit Duration) (temp_dir : String) (bytes : List Nat)
    (d : δ) (hopen : eng.openDb bytes = Except.ok d) :
    (SqliteDB.virtual_file eng clock temp_dir (Except.ok ())
        (fun _ => Except.ok ()) (VirtualFile.ofBytes bytes)).result
      = Except.ok (SqliteDB.new ⟨d, OpenFlags.new.set_read_only.set_full_mutex⟩) ∧
    ∀ sql : String,
      run_query eng (SqliteDB.new ⟨d, OpenFlags.new.set_read_only.set_full_mutex⟩) sql
        = run_query eng (SqliteDB.new ⟨d, OpenFlags.new⟩) sql := by
  constructor
  · rw [virtual_file_result_eq]
    rw [copy_ofBytes bytes 0 []]
    show (match eng.openDb ([] ++ bytes) with
      | .error e => Except.error (ForensicError.Other e)
      | .ok c => Except.ok (SqliteDB.new
          ⟨c, OpenFlags.new.set_read_only.set_full_mutex⟩)) = _
    rw [List.nil_append, hopen]
  · intro sql
    rfl

/-- Witness for C1: a concrete three-byte file through a concrete engine. -/
theorem claim_C1_witness :
    (SqliteDB.virtual_file c1_engine (Except.error ()) "/tmp" (Except.ok ())
        (fun _ => Except.ok ()) (VirtualFile.ofBytes [1, 2, 3])).result
      = Except.ok (SqliteDB.new
          ⟨[1, 2, 3], OpenFlags.new.set_read_only.set_full_mutex⟩) ∧
    run_query c1_engine (SqliteDB.new
        ⟨[1, 2, 3], OpenFlags.new.set_read_only.set_full_mutex⟩) "SELECT 1;"
      = run_query c1_engine (SqliteDB.new ⟨[1, 2, 3], OpenFlags.new⟩) "SELECT 1;" :=
  ⟨(claim_C1_virtual_roundtrip c1_engine (Except.error ()) "/tmp" [1, 2, 3]
      [1, 2, 3] rfl).1,
   (claim_C1_virtual_roundtrip c1_engine (Except.error ()) "/tmp" [1, 2, 3]
      [1, 2, 3] rfl).2 "SELECT 1;"⟩

/-- Following the spec's words: the temp-file name,
`forensic_sqlite.<subsecond-nanoseconds-of-current-time>.db`. -/
def spec_temp_name (d : Duration) : String :=
  "forensic_sqlite." ++ toString d.subsec_nanos ++ ".db"

/-- Following the spec's words: stream the virtual file's bytes in
fixed-size 4096-byte chunks until a read reports end-of-stream, writing
each chunk as it arrives; the streamed content is their concatenation.  A
virtual-file read failure propagates as-is (it already carries the generic
error), a write failure is the I/O error kind. -/
def spec_stream (file : VirtualFile) (write_res : Nat → Except String Unit)
    (k : Nat) : Except ForensicError (List Nat) :=
  match file with
  | [] => Except.ok []
  | f :: rest =>
    match f 4096 with
    | .error e => .error e
    | .ok chunk =>
      if chunk.length = 0 then Except.ok []
      else
        match write_res k with
        | .error e => .error (ForensicError.Io e)
        | .ok _ => (spec_stream rest write_res (k + 1)).map (fun tl => chunk ++ tl)

/-- The source's accumulator-passing copy loop computes exactly the
spec-side stream, prefixed by the accumulator. -/
theorem copy_loop_spec_stream (file : VirtualFile)
    (write_res : Nat → Except String Unit) (k : Nat) (acc : List Nat) :
    copy_loop file write_res k acc
      = (spec_stream file write_res k).map (fun tl => acc ++ tl) := by
  induction file generalizing k acc with
  | nil => simp [copy_loop, spec_stream, Except.map]
  | cons f rest ih =>
    rw [copy_loop, spec_stream]
    cases hf : f 4096 with
    | error e => simp [Except.map]
    | ok chunk =>
      by_cases hlen : chunk.length = 0
      · simp [hlen, Except.map]
      · simp only [if_neg hlen]
        cases hw : write_res k with
        | error e => simp [Except.map]
        | ok u =>
          simp only
          rw [ih]
          cases hs : spec_stream rest write_res (k + 1) with
          | error e => simp [Except.map]
          | ok tl => simp [Except.map]

/-- C8: materialization uses the path `<temp-dir>/forensic_sqlite.<subsecond
nanoseconds of the clock reading>.db`; with the temp file created it streams
the virtual file in 4096-byte chunks until a zero-length read and opens the
streamed content in the engine with the read-only and full-mutex flags,
wrapping an engine open failure in the engine error kind; a temp-file
creation failure is the I/O error kind, and a streaming failure (failed
virtual-file read, or failed write as the I/O kind) propagates. -/
theorem claim_C8_materialization {δ : Type} (eng : SqlEngine δ)
    (clock : Except Unit Duration) (temp_dir : String)
    (create_res : Except String Unit) (write_res : Nat → Except String Unit)
    (file : VirtualFile) :
    (∀ d : Duration, clock = Except.ok d →
      (SqliteDB.virtual_file eng clock temp_dir create_res write_res file).temp_path
        = temp_dir_join temp_dir (spec_temp_name d)) ∧
    (∀ bytes : List Nat, create_res = Except.ok () →
      spec_stream file write_res 0 = Except.ok bytes →
      (SqliteDB.virtual_file eng clock temp_dir create_res write_res file).result
        = (match eng.openDb bytes with
           | .error e => Except.error (ForensicError.Other e)
           | .ok c => Except.ok (SqliteDB.new
               ⟨c, OpenFlags.new.set_read_only.set_full_mutex⟩))) ∧
    (∀ e : String, create_res = Except.error e →
      (SqliteDB.virtual_file eng clock temp_dir create_res write_res file).result
        = Except.error (ForensicError.Io e)) ∧
    (∀ e : ForensicError, create_res = Except.ok () →
      spec_stream file write_res 0 = Except.error e →
      (SqliteDB.virtual_file eng clock temp_dir create_res write_res file).result
        = Except.error e) := by
  refine ⟨?_, ?_, ?_, ?_⟩
  · intro d hd
    rw [virtual_file_temp_path, hd]
    rfl
  · intro bytes hcr hs
    rw [virtual_file_result_eq, hcr]
    have hc : copy_loop file write_res 0 [] = Except.ok bytes := by
      rw [copy_loop_spec_stream, hs]
      simp [Except.map]
    simp only [hc]
  · intro e hcr
    rw [virtual_file_result_eq, hcr]
  · intro e hcr hs
    rw [virtual_file_result_eq, hcr]
    have hc : copy_loop file write_res 0 [] = Except.error e := by
      rw [copy_loop_spec_stream, hs]
      rfl
    simp only [hc]

/-- An engine witnessing C8: a database content is the raw bytes. -/
def c8_engine : SqlEngine (List Nat) :=
  ⟨fun bs => Except.ok bs, fun _ _ => Except.error "x"⟩

/-- A virtual file whose reads deliver one two-byte chunk, then
end-of-stream. -/
def c8_file : VirtualFile :=
  [fun _ => Except.ok [7, 8], fun _ => Except.ok []]

/-- A virtual file whose first read fails. -/
def c8_bad_file : VirtualFile :=
  [fun _ => Except.error (ForensicError.Io "bad read")]

/-- Witness for C8 at concrete inputs: the path, the success shape, the
temp-file creation failure and the read failure. -/
theorem claim_C8_witness :
    (SqliteDB.virtual_file c8_engine (Except.ok ⟨5, 123⟩) "/tmp" (Except.ok ())
        (fun _ => Except.ok ()) c8_file).temp_path
      = temp_dir_join "/tmp" (spec_temp_name ⟨5, 123⟩) ∧
    (SqliteDB.virtual_file c8_engine (Except.ok ⟨5, 123⟩) "/tmp" (Except.ok ())
        (fun _ => Except.ok ()) c8_file).result
      = Except.ok (SqliteDB.new
          ⟨[7, 8], OpenFlags.new.set_read_only.set_full_mutex⟩) ∧
    (SqliteDB.virtual_file c8_engine (Except.ok ⟨5, 123⟩) "/tmp"
        (Except.error "disk full") (fun _ => Except.ok ()) c8_file).result
      = Except.error (ForensicError.Io "disk full") ∧
    (SqliteDB.virtual_file c8_engine (Except.ok ⟨5, 123⟩) "/tmp" (Except.ok ())
        (fun _ => Except.ok ()) c8_bad_file).result
      = Except.error (ForensicError.Io "bad read") :=
  ⟨(claim_C8_materialization c8_engine (Except.ok ⟨5, 123⟩) "/tmp" (Except.ok ())
      (fun _ => Except.ok ()) c8_file).1 ⟨5, 123⟩ rfl,
   (claim_C8_materialization c8_engine (Except.ok ⟨5, 123⟩) "/tmp" (Except.ok ())
      (fun _ => Except.ok ()) c8_file).2.1 [7, 8] rfl rfl,
   (claim_C8_materialization c8_engine (Except.ok ⟨5, 123⟩) "/tmp"
      (Except.error "disk full") (fun _ => Except.ok ()) c8_file).2.2.1
      "disk full" rfl,
   (claim_C8_materialization c8_engine (Except.ok ⟨5, 123⟩) "/tmp" (Except.ok ())
      (fun _ => Except.ok ()) c8_bad_file).2.2.2
      (ForensicError.Io "bad read") rfl rfl⟩

/-- A virtual file whose very first read reports end-of-stream: a
zero-length source. -/
def empty_vfile : VirtualFile := [fun _ => Except.ok []]

/-- C9: materializing a zero-length virtual file succeeds — the handle wraps
whatever content the engine parses from the empty temp file — and when the
engine rejects a statement on that content (an expected table cannot
exist), `prepare` returns the engine error kind wrapping the native
message: an error value, not a panic or a hang. -/
theorem claim_C9_empty_source {δ : Type} (eng : SqlEngine δ)
    (clock : Except Unit Duration) (temp_dir : String) (d : δ) (sql e : String)
    (hopen : eng.openDb [] = Except.ok d)
    (hprep : eng.prepareStmt d sql = Except.error e) :
    (SqliteDB.virtual_file eng clock temp_dir (Except.ok ())
        (fun _ => Except.ok ()) empty_vfile).result
      = Except.ok (SqliteDB.new ⟨d, OpenFlags.new.set_read_only.set_full_mutex⟩) ∧
    SqliteDB.prepare eng
        (SqliteDB.new ⟨d, OpenFlags.new.set_read_only.set_full_mutex⟩) sql
      = Except.error (ForensicError.Other e) := by
  constructor
  · rw [virtual_file_result_eq]
    have hc : copy_loop empty_vfile (fun _ => Except.ok ()) 0 []
        = Except.ok [] := rfl
    simp only [hc, hopen]
  · simp [SqliteDB.prepare, SqliteStatement.new, SqliteDB.new, hprep]

/-- An engine witnessing C9: opening empty bytes succeeds with an empty
content, on which every statement fails with the native "no such table"
message. -/
def c9_engine : SqlEngine (List Nat) :=
  ⟨fun bs => Except.ok bs,
   fun db _ =>
     if db.isEmpty then Except.error "no such table: users"
     else Except.ok ⟨[], [], none⟩⟩

/-- Witness for C9 at a concrete engine and query. -/
theorem claim_C9_witness :
    (SqliteDB.virtual_file c9_engine (Except.ok ⟨0, 0⟩) "/tmp" (Except.ok ())
        (fun _ => Except.ok ()) empty_vfile).result
      = Except.ok (SqliteDB.new
          ⟨([] : List Nat), OpenFlags.new.set_read_only.set_full_mutex⟩) ∧
    SqliteDB.prepare c9_engine
        (SqliteDB.new ⟨([] : List Nat), OpenFlags.new.set_read_only.set_full_mutex⟩)
        "SELECT name, age FROM users;"
      = Except.error (ForensicError.Other "no such table: users") :=
  claim_C9_empty_source c9_engine (Except.ok ⟨0, 0⟩) "/tmp" []
    "SELECT name, age FROM users;" "no such table: users" rfl rfl

/-- C10: when the clock reading fails (a pre-epoch system time), the code
falls back to a one-second duration, whose subsecond-nanosecond part is 0,
so the temp file is named `forensic_sqlite.0.db` — and the materialization
otherwise proceeds exactly as with any working clock (the result does not
depend on the clock at all). -/
theorem claim_C10_clock_fallback {δ : Type} (eng : SqlEngine δ)
    (temp_dir : String) (create_res : Except String Unit)
    (write_res : Nat → Except String Unit) (file : VirtualFile) :
    (SqliteDB.virtual_file eng (Except.error ()) temp_dir create_res write_res
        file).temp_path
      = temp_dir_join temp_dir "forensic_sqlite.0.db" ∧
    Duration.subsec_nanos (Duration.from_secs 1) = 0 ∧
    ∀ clock : Except Unit Duration,
      (SqliteDB.virtual_file eng (Except.error ()) temp_dir create_res write_res
          file).result
        = (SqliteDB.virtual_file eng clock temp_dir create_res write_res
            file).result := by
  refine ⟨?_, rfl, ?_⟩
  · rw [virtual_file_temp_path]
    rfl
  · intro clock
    rw [virtual_file_result_eq, virtual_file_result_eq]

end FrnscSqlite
